import Mathlib

/-!
Verification development for the VOEvent parser (src/voevent.py).

Python runtime values are modelled by the explicit sum type `PyValue`.
Machine floats are modelled as exact rationals of their decimal literals
together with the special values inf, -inf and nan: binary rounding is not
modelled, since only parse success/failure and exact decimal values are at
stake in this development.  Exceptions are modelled with `Except PyErr`.
All string handling is over ASCII, which covers every literal the parser
compares against.
-/

inductive PyFloat where
  | finite (q : Rat)
  | inf
  | neginf
  | nan
deriving DecidableEq, Repr

/-- A Python `datetime`.  `frac` is the sub-second part kept as an exact
rational (Python stores microseconds; no claim depends on microsecond
rounding, so the exact value is kept). -/
structure PyDateTime where
  year : Nat
  month : Nat
  day : Nat
  hour : Nat
  minute : Nat
  second : Nat
  frac : Rat
deriving DecidableEq, Repr

inductive PyValue where
  | vNone
  | vStr (s : String)
  | vInt (n : Int)
  | vFloat (x : PyFloat)
  | vBool (b : Bool)
  | vDate (d : PyDateTime)
deriving DecidableEq, Repr

inductive PyErr where
  | attributeError
  | keyError
  | indexError
  | valueError
  | typeError
  | assertionError
  | overflowError
deriving DecidableEq, Repr

/-- The `conversion` argument of `convert_value`: one of the strings
force / always / given / none (modelled as an enumeration). -/
inductive Conv where
  | force
  | always
  | given
  | noconv
deriving DecidableEq, Repr

/-- Python truthiness of a value (`if x:`). `nan` and every `datetime` are
truthy; `0`, `0.0`, `""`, `False` and `None` are falsy. -/
def pyTruthy : PyValue → Bool
  | .vNone => false
  | .vStr s => s ≠ ""
  | .vInt n => n ≠ 0
  | .vFloat (.finite q) => q.num ≠ 0
  | .vFloat _ => true
  | .vBool b => b
  | .vDate _ => true

/-! ## String primitives (Python `str` methods, ASCII model) -/

def pyIsSpace (c : Char) : Bool :=
  c = ' ' ∨ c = '\t' ∨ c = '\n' ∨ c = '\r' ∨ c = '\x0b' ∨ c = '\x0c'

def pyStrip (s : String) : String :=
  String.mk (((s.toList.dropWhile pyIsSpace).reverse.dropWhile pyIsSpace).reverse)

def pyLower (s : String) : String :=
  String.mk (s.toList.map Char.toLower)

/-- `str.split(sep, maxsplit)` on a single character separator.
Splitting the empty string yields `[""]`, as in Python. -/
def splitCharNAux (c : Char) : List Char → Nat → List Char → List String
  | [], _, acc => [String.mk acc.reverse]
  | x :: xs, fuel, acc =>
    if x = c then
      match fuel with
      | 0 => splitCharNAux c xs 0 (x :: acc)
      | Nat.succ f => String.mk acc.reverse :: splitCharNAux c xs f []
    else splitCharNAux c xs fuel (x :: acc)

def pySplitCharN (s : String) (c : Char) (maxsplit : Nat) : List String :=
  splitCharNAux c s.toList maxsplit []

/-- `str.split('.')` with no maxsplit (a fuel of the string length is
always enough). -/
def pySplitCharAll (s : String) (c : Char) : List String :=
  pySplitCharN s c s.length

/-- `str.split(maxsplit=1)` (split on whitespace runs): `some (tok, rest)`
when the result has two fields, `Option.none` when it has fewer (in which
case a two-name unpacking raises ValueError in Python). -/
def pyWsSplit1 (s : String) : Option (String × String) :=
  let cs := s.toList.dropWhile pyIsSpace
  if cs = [] then Option.none
  else
    let tok := cs.takeWhile (fun c => ¬ pyIsSpace c)
    let rest := (cs.dropWhile (fun c => ¬ pyIsSpace c)).dropWhile pyIsSpace
    if rest = [] then Option.none
    else some (String.mk tok, String.mk rest)

/-! ## Kernel-computable rational arithmetic

The library arithmetic on `Rat` is irreducible, so the handful of exact
rational operations this model needs are defined here directly over
`mkRat`, which normalizes; all rational values in this file are therefore
in canonical form and structural equality agrees with value equality. -/

def ratNeg (a : Rat) : Rat := mkRat (-a.num) a.den

def ratAdd (a b : Rat) : Rat := mkRat (a.num * b.den + b.num * a.den) (a.den * b.den)

def ratSub (a b : Rat) : Rat := ratAdd a (ratNeg b)

/-- Boolean `a ≤ b` on rationals by cross multiplication. -/
def ratLeB (a b : Rat) : Bool := a.num * (b.den : Int) ≤ b.num * (a.den : Int)

/-- `⌊a⌋` for a rational. -/
def ratFloor (a : Rat) : Int := Int.fdiv a.num a.den

/-- `⌊a / n⌋` for a positive natural `n`. -/
def ratFloorDivNat (a : Rat) (n : Nat) : Int := Int.fdiv a.num (a.den * n)

/-! ## Python `int()` and `float()` on strings -/

/-- A run of ASCII digits in which every underscore is flanked by digits
(the digit-group syntax Python number literals accept). -/
def digitRunOkAux : List Char → Bool
  | [] => true
  | c :: rest =>
    if c.isDigit then digitRunOkAux rest
    else if c = '_' then
      match rest with
      | [] => false
      | d :: rest2 => d.isDigit && digitRunOkAux rest2
    else false

def digitRunOk : List Char → Bool
  | [] => false
  | c :: rest => c.isDigit && digitRunOkAux rest

def digitsVal (cs : List Char) : Nat :=
  (cs.filter Char.isDigit).foldl (fun a c => 10 * a + (c.toNat - 48)) 0

def digitCount (cs : List Char) : Nat :=
  (cs.filter Char.isDigit).length

def pyIntOfChars? : List Char → Option Int
  | '+' :: r => if digitRunOk r then some (Int.ofNat (digitsVal r)) else Option.none
  | '-' :: r => if digitRunOk r then some (-(Int.ofNat (digitsVal r))) else Option.none
  | r => if digitRunOk r then some (Int.ofNat (digitsVal r)) else Option.none

/-- Python `int(s)` for a string: `some n` on success, `Option.none` when
`int` would raise ValueError. -/
def pyInt? (s : String) : Option Int :=
  pyIntOfChars? (pyStrip s).toList

/-- Split a character list at the first occurrence of one of the given
characters. -/
def splitFirstAt (sep : List Char) : List Char → Option (List Char × List Char)
  | [] => Option.none
  | c :: rest =>
    if c ∈ sep then some ([], rest)
    else
      match splitFirstAt sep rest with
      | some (a, b) => some (c :: a, b)
      | Option.none => Option.none

/-- Exact-value threshold above which a decimal literal converts to an IEEE
double infinity (the round-half-even boundary above the largest finite
double). -/
def floatOverflowBound : Rat :=
  mkRat 179769313486231580793728971405303415079934132710037826936173778980444968292764750946649017977587207096330286416692887910946555547851940402630657488671505820681908902000708383676273854845817711531764475730270069855571366959622842914819860834936475292719074168444365510704342711559699508093042880177904174497792 1

def floatOfRat (q : Rat) : PyFloat :=
  if ratLeB floatOverflowBound q then PyFloat.inf
  else if ratLeB q (ratNeg floatOverflowBound) then PyFloat.neginf
  else PyFloat.finite q

/-- Parse the body of a float literal (sign already removed): a mantissa of
digit runs around an optional point, then an optional exponent. -/
def pyFloatBody? (cs : List Char) : Option Rat :=
  let manExp : List Char × Option (List Char) :=
    match splitFirstAt ['e', 'E'] cs with
    | some (m, e) => (m, some e)
    | Option.none => (cs, Option.none)
  let mantissa := manExp.1
  let mval : Option Rat :=
    match splitFirstAt ['.'] mantissa with
    | some (ip, fp) =>
      if (ip = [] ∨ digitRunOk ip) ∧ (fp = [] ∨ digitRunOk fp) ∧ (ip ≠ [] ∨ fp ≠ []) then
        some (ratAdd (mkRat (Int.ofNat (digitsVal ip)) 1)
                     (mkRat (Int.ofNat (digitsVal fp)) (Nat.pow 10 (digitCount fp))))
      else Option.none
    | Option.none =>
      if digitRunOk mantissa then some (mkRat (Int.ofNat (digitsVal mantissa)) 1) else Option.none
  match mval with
  | Option.none => Option.none
  | some m =>
    match manExp.2 with
    | Option.none => some m
    | some ecs =>
      let esign : Bool × List Char :=
        match ecs with
        | '+' :: r => (false, r)
        | '-' :: r => (true, r)
        | r => (false, r)
      if digitRunOk esign.2 then
        some (if esign.1 then mkRat m.num (m.den * Nat.pow 10 (digitsVal esign.2))
              else mkRat (m.num * Int.ofNat (Nat.pow 10 (digitsVal esign.2))) m.den)
      else Option.none

/-- Python `float(s)` for a string: `some x` on success (possibly an
infinity for overflowing literals), `Option.none` when `float` would raise
ValueError. -/
def pyFloat? (s : String) : Option PyFloat :=
  let t := pyStrip s
  let signBody : Bool × List Char :=
    match t.toList with
    | '+' :: r => (false, r)
    | '-' :: r => (true, r)
    | r => (false, r)
  let low := pyLower (String.mk signBody.2)
  if low = "inf" ∨ low = "infinity" then
    some (if signBody.1 then PyFloat.neginf else PyFloat.inf)
  else if low = "nan" then some PyFloat.nan
  else
    match pyFloatBody? signBody.2 with
    | some q => some (floatOfRat (if signBody.1 then ratNeg q else q))
    | Option.none => Option.none

/-! ## `datetime.strptime(s, "%Y-%m-%dT%H:%M:%S")` and timedelta addition -/

def isLeap (y : Nat) : Bool :=
  (y % 4 = 0 ∧ y % 100 ≠ 0) ∨ y % 400 = 0

def daysInMonth (y m : Nat) : Nat :=
  if m = 2 then (if isLeap y then 29 else 28)
  else if m = 4 ∨ m = 6 ∨ m = 9 ∨ m = 11 then 30
  else 31

def parseYear4 : List Char → Option (Nat × List Char)
  | a :: b :: c :: d :: rest =>
    if a.isDigit ∧ b.isDigit ∧ c.isDigit ∧ d.isDigit then
      some (((a.toNat - 48) * 10 + (b.toNat - 48)) * 100 +
            ((c.toNat - 48) * 10 + (d.toNat - 48)), rest)
    else Option.none
  | _ => Option.none

/-- A one-or-two digit strptime field with the regex alternation semantics
of CPython `_strptime` (two digits in `[lo, hi]`, else one digit in
`[lo, 9]`). -/
def parseField2 (lo hi : Nat) : List Char → Option (Nat × List Char)
  | c1 :: c2 :: rest =>
    if c1.isDigit && c2.isDigit then
      let v := (c1.toNat - 48) * 10 + (c2.toNat - 48)
      if lo ≤ v ∧ v ≤ hi then some (v, rest)
      else
        let v1 := c1.toNat - 48
        if lo ≤ v1 ∧ v1 ≤ 9 then some (v1, c2 :: rest) else Option.none
    else if c1.isDigit then
      let v1 := c1.toNat - 48
      if lo ≤ v1 ∧ v1 ≤ 9 then some (v1, c2 :: rest) else Option.none
    else Option.none
  | [c1] =>
    if c1.isDigit then
      let v1 := c1.toNat - 48
      if lo ≤ v1 ∧ v1 ≤ 9 then some (v1, []) else Option.none
    else Option.none
  | [] => Option.none

def expectChar (c : Char) : List Char → Option (List Char)
  | x :: rest => if x = c then some rest else Option.none
  | [] => Option.none

/-- Literal letters in strptime formats match case-insensitively (CPython
compiles the format with IGNORECASE). -/
def expectCharCI (c : Char) : List Char → Option (List Char)
  | x :: rest => if x.toLower = c.toLower then some rest else Option.none
  | [] => Option.none

/-- `datetime.strptime(s, "%Y-%m-%dT%H:%M:%S")`: `Option.none` for every
input on which Python raises ValueError (bad shape, trailing characters, or
field values the `datetime` constructor rejects). -/
def strptimeYmdTHms (s : String) : Option PyDateTime := do
  let cs := s.toList
  let (y, cs) ← parseYear4 cs
  let cs ← expectChar '-' cs
  let (mo, cs) ← parseField2 1 12 cs
  let cs ← expectChar '-' cs
  let (d, cs) ← parseField2 1 31 cs
  let cs ← expectCharCI 'T' cs
  let (h, cs) ← parseField2 0 23 cs
  let cs ← expectChar ':' cs
  let (mi, cs) ← parseField2 0 59 cs
  let cs ← expectChar ':' cs
  let (se, cs) ← parseField2 0 61 cs
  if cs ≠ [] then Option.none
  else if y = 0 then Option.none
  else if daysInMonth y mo < d then Option.none
  else if 59 < se then Option.none
  else some ⟨y, mo, d, h, mi, se, mkRat 0 1⟩

/-- Days since 1970-01-01 of a proleptic Gregorian date. -/
def daysFromCivil (y : Int) (m d : Nat) : Int :=
  let y2 : Int := if m ≤ 2 then y - 1 else y
  let era : Int := Int.fdiv y2 400
  let yoe : Int := y2 - era * 400
  let mp : Nat := (m + 9) % 12
  let doy : Int := Int.ofNat ((153 * mp + 2) / 5 + d - 1)
  let doe : Int := yoe * 365 + Int.fdiv yoe 4 - Int.fdiv yoe 100 + doy
  era * 146097 + doe - 719468

/-- Inverse of `daysFromCivil`. -/
def civilFromDays (z0 : Int) : Int × Nat × Nat :=
  let z : Int := z0 + 719468
  let era : Int := Int.fdiv z 146097
  let doe : Int := z - era * 146097
  let yoe : Int := (doe - doe / 1460 + doe / 36524 - doe / 146096) / 365
  let doy : Int := doe - (365 * yoe + yoe / 4 - yoe / 100)
  let mp : Int := (5 * doy + 2) / 153
  let d : Int := doy - (153 * mp + 2) / 5 + 1
  let m : Int := mp + (if mp < 10 then 3 else -9)
  let y : Int := yoe + era * 400 + (if m ≤ 2 then 1 else 0)
  (y, d.toNat, m.toNat)

def civilYear (p : Int × Nat × Nat) : Int := p.1
def civilDay (p : Int × Nat × Nat) : Nat := p.2.1
def civilMonth (p : Int × Nat × Nat) : Nat := p.2.2

/-- `dt + timedelta(0, q, 0)`: Python raises OverflowError when the
timedelta day count leaves `[-999999999, 999999999]` or the resulting date
leaves the years 1..9999; both propagate out of `convert_value`, whose
`except` clauses catch only ValueError. -/
def pyDatetimeAdd (dt : PyDateTime) (q : Rat) : Except PyErr PyDateTime :=
  if (999999999 : Int) < ratFloorDivNat q 86400 ∨ ratFloorDivNat q 86400 < (-999999999 : Int) then
    Except.error PyErr.overflowError
  else
    let secOfDay : Int := Int.ofNat (dt.hour * 3600 + dt.minute * 60 + dt.second)
    let total : Rat :=
      ratAdd (ratAdd (mkRat ((daysFromCivil dt.year dt.month dt.day) * 86400 + secOfDay) 1) dt.frac) q
    let whole : Int := ratFloor total
    let fr : Rat := ratSub total (mkRat whole 1)
    let days : Int := Int.fdiv whole 86400
    let sod : Nat := (whole - 86400 * days).toNat
    let ymd := civilFromDays days
    if civilYear ymd < 1 ∨ 9999 < civilYear ymd then Except.error PyErr.overflowError
    else
      Except.ok ⟨(civilYear ymd).toNat, civilMonth ymd, civilDay ymd,
                 sod / 3600, (sod % 3600) / 60, sod % 60, fr⟩

/-! ## `convert_value` (src/voevent.py lines 187-235) -/

/-- The first stage of `convert_value` for a string under the force /
always modes: boolean literals, then `int`, then `float`, then the
timestamp chain.  Note that the whitespace split re-splits the original
string, not the fraction-stripped date, exactly as the source does.  The
only escaping exceptions are OverflowErrors from the fractional-second
timedelta (everything else is caught by the `except ValueError` arms). -/
def convert_force (s : String) : Except PyErr PyValue :=
  if pyLower s = "true" ∨ pyLower s = "yes" then Except.ok (PyValue.vBool true)
  else if pyLower s = "false" ∨ pyLower s = "no" then Except.ok (PyValue.vBool false)
  else
    match pyInt? s with
    | some n => Except.ok (PyValue.vInt n)
    | Option.none =>
      match pyFloat? s with
      | some x => Except.ok (PyValue.vFloat x)
      | Option.none =>
        let df : String × Option String :=
          match pySplitCharN s '.' 1 with
          | [d, f] => (d, some ("0." ++ f))
          | _ => (s, Option.none)
        let date : String :=
          match pyWsSplit1 s with
          | some (d, t) => d ++ "T" ++ t
          | Option.none => df.1
        match strptimeYmdTHms date with
        | Option.none => Except.ok (PyValue.vStr s)
        | some dt =>
          match df.2 with
          | Option.none => Except.ok (PyValue.vDate dt)
          | some fs =>
            match pyFloat? fs with
            | Option.none => Except.ok (PyValue.vStr s)
            | some (PyFloat.finite q) =>
              match pyDatetimeAdd dt q with
              | Except.ok d2 => Except.ok (PyValue.vDate d2)
              | Except.error e => Except.error e
            | some _ => Except.error PyErr.overflowError

/-- Python `int(x)` on an arbitrary value. -/
def pyIntFn : PyValue → Except PyErr PyValue
  | .vStr s =>
    match pyInt? s with
    | some n => Except.ok (PyValue.vInt n)
    | Option.none => Except.error PyErr.valueError
  | .vInt n => Except.ok (PyValue.vInt n)
  | .vBool b => Except.ok (PyValue.vInt (if b then 1 else 0))
  | .vFloat (.finite q) => Except.ok (PyValue.vInt (q.num / (q.den : Int)))
  | .vFloat .nan => Except.error PyErr.valueError
  | .vFloat _ => Except.error PyErr.overflowError
  | .vDate _ => Except.error PyErr.typeError
  | .vNone => Except.error PyErr.typeError

/-- Python `float(x)` on an arbitrary value (an integer too large for a
double raises OverflowError). -/
def pyFloatFn : PyValue → Except PyErr PyValue
  | .vStr s =>
    match pyFloat? s with
    | some x => Except.ok (PyValue.vFloat x)
    | Option.none => Except.error PyErr.valueError
  | .vInt n =>
    if ratLeB floatOverflowBound (mkRat n 1) ∨ ratLeB (mkRat n 1) (ratNeg floatOverflowBound) then
      Except.error PyErr.overflowError
    else Except.ok (PyValue.vFloat (PyFloat.finite (mkRat n 1)))
  | .vBool b => Except.ok (PyValue.vFloat (PyFloat.finite (mkRat (if b then 1 else 0) 1)))
  | .vFloat x => Except.ok (PyValue.vFloat x)
  | .vDate _ => Except.error PyErr.typeError
  | .vNone => Except.error PyErr.typeError

/-- Python `str(x)`.  The renderings of floats and datetimes are
abbreviated: `convert_value` only reaches `str` with the original input,
and the VOEvent code passes it nothing but strings and `None`. -/
def pyStrFn : PyValue → String
  | .vStr s => s
  | .vBool b => if b then "True" else "False"
  | .vInt n => toString n
  | .vNone => "None"
  | .vFloat (.finite q) => toString q
  | .vFloat .inf => "inf"
  | .vFloat .neginf => "-inf"
  | .vFloat .nan => "nan"
  | .vDate _ => "datetime"

/-- The second `if` block of `convert_value` (declared-type handling under
the always / given modes).  `tmpval` is the original argument, `value` the
result of the first block; the bool branch calls `.lower()` on `value`,
which raises AttributeError when the first block retyped it. -/
def convert_given (tmpval value : PyValue) (datatype : Option String) : Except PyErr PyValue :=
  if pyTruthy tmpval then
    match datatype with
    | Option.none => Except.ok value
    | some dt =>
      if dt = "int" then pyIntFn tmpval
      else if dt = "float" then pyFloatFn tmpval
      else if dt = "string" then Except.ok (PyValue.vStr (pyStrFn tmpval))
      else if dt = "bool" ∨ dt = "boolean" then
        match value with
        | .vStr s =>
          if pyLower s = "true" ∨ pyLower s = "yes" then Except.ok (PyValue.vBool true)
          else if pyLower s = "false" ∨ pyLower s = "no" then Except.ok (PyValue.vBool false)
          else Except.ok value
        | _ => Except.error PyErr.attributeError
      else Except.ok value
  else Except.ok value

/-- `convert_value(value, conversion, datatype)`.  The `datatype` argument
is compared only against string literals in the source, so a non-string
`dataType` attribute behaves like an absent one; callers therefore pass it
as `Option String`. -/
def convert_value (value : PyValue) (conversion : Conv) (datatype : Option String) : Except PyErr PyValue :=
  let tmpval := value
  let step1 : Except PyErr PyValue :=
    if conversion = Conv.force ∨ conversion = Conv.always then
      match tmpval with
      | .vNone => Except.ok value
      | .vStr s => convert_force s
      | _ => Except.error PyErr.attributeError
    else Except.ok value
  match step1 with
  | Except.error e => Except.error e
  | Except.ok value1 =>
    if conversion = Conv.always ∨ conversion = Conv.given then
      convert_given tmpval value1 datatype
    else Except.ok value1

/-! ## Claims about `convert_value` -/

/-- Is an `Except` result an error? -/
def exErr {α : Type} : Except PyErr α → Bool
  | Except.ok _ => false
  | Except.error _ => true

/-- Whether the force stage converts `s` away from a string (into a
boolean, integer, float or datetime). -/
def forceRetyped (s : String) : Bool :=
  match convert_force s with
  | Except.ok (PyValue.vStr _) => false
  | Except.ok _ => true
  | Except.error _ => false

/-- C3: the claim expects `coerce("2020-01-02 03:04:05.5", Force)` to be
the timestamp 2020-01-02T03:04:05.5; the code instead re-splits the
original string (with its fractional part) on whitespace, hands
"2020-01-02T03:04:05.5" to strptime, which rejects the trailing ".5", and
falls back to the original string.  The same fractional-second logic does
work when date and time are not whitespace-separated, witnessing that the
fraction-isolation step was intended to feed the strptime call. -/
theorem c3_theorem :
    convert_value (PyValue.vStr "2020-01-02 03:04:05.5") Conv.force Option.none =
      Except.ok (PyValue.vStr "2020-01-02 03:04:05.5") ∧
    convert_value (PyValue.vStr "2020-01-02T03:04:05.5") Conv.force Option.none =
      Except.ok (PyValue.vDate ⟨2020, 1, 2, 3, 4, 5, mkRat 1 2⟩) := by
  constructor
  · rfl
  · rfl

/-- C9 counterexample: `convert_value` on the empty string returns the
empty string, not Null (`None`), under Force mode (and every other mode,
see the amended theorem). -/
theorem c9_counterexample :
    convert_value (PyValue.vStr "") Conv.force Option.none = Except.ok (PyValue.vStr "") ∧
    PyValue.vStr "" ≠ PyValue.vNone := by
  constructor
  · rfl
  · decide

/-- C9 amended: for every conversion mode and declared type,
`convert_value` returns Null when the raw input is absent (`None`), and
returns the empty string unchanged when the raw input is the empty string
(its callers test truthiness first, so the empty string never reaches it
in the flattener). -/
theorem c9_theorem (conversion : Conv) (datatype : Option String) :
    convert_value PyValue.vNone conversion datatype = Except.ok PyValue.vNone ∧
    convert_value (PyValue.vStr "") conversion datatype = Except.ok (PyValue.vStr "") := by
  have hcf : convert_force "" = Except.ok (PyValue.vStr "") := rfl
  cases conversion <;>
    simp [convert_value, convert_given, pyTruthy, hcf]

/-- C4 counterexample: with conversion mode Always and declared type
"bool", the input "true" raises AttributeError — a hard failure on a
boolean declared type, which the claim says cannot happen.  The force
stage turns the value into the boolean True, and the declared-type stage
then calls `.lower()` on it. -/
theorem c4_counterexample :
    convert_value (PyValue.vStr "true") Conv.always (some "bool") =
      Except.error PyErr.attributeError := by
  rfl

lemma exErr_ok {α : Type} (v : α) : exErr (Except.ok v) = false := rfl

lemma exErr_error {α : Type} (e : PyErr) : exErr (Except.error e : Except PyErr α) = true := rfl

lemma exErr_boolLiteral (t : String) :
    exErr (if pyLower t = "true" ∨ pyLower t = "yes" then Except.ok (PyValue.vBool true)
           else if pyLower t = "false" ∨ pyLower t = "no" then Except.ok (PyValue.vBool false)
           else Except.ok (PyValue.vStr t)) = false := by
  split
  · rfl
  · split
    · rfl
    · rfl

/-- C4 amended: for a non-empty input string, `convert_value` raises a
hard failure exactly when (a) an int or float declared type fails to parse
under Given/Always, (b) under Always a bool/boolean declared type meets a
value the first stage already retyped (the `.lower()` call then raises
AttributeError), or (c) under Force/Always the timestamp stage itself
escapes with an OverflowError (a parseable date-time whose
fractional-second offset overflows the float, timedelta or datetime
range).  In particular an unparseable timestamp or a Given-mode boolean
mismatch still falls back silently. -/
theorem c4_theorem (s : String) (hs : s ≠ "") (conversion : Conv) (datatype : Option String) :
    exErr (convert_value (PyValue.vStr s) conversion datatype) = true ↔
      (((conversion = Conv.always ∨ conversion = Conv.given) ∧
          datatype = some "int" ∧ pyInt? s = Option.none) ∨
       ((conversion = Conv.always ∨ conversion = Conv.given) ∧
          datatype = some "float" ∧ pyFloat? s = Option.none) ∨
       (conversion = Conv.always ∧ (datatype = some "bool" ∨ datatype = some "boolean") ∧
          forceRetyped s = true) ∨
       ((conversion = Conv.force ∨ conversion = Conv.always) ∧
          exErr (convert_force s) = true)) := by
  have hT : pyTruthy (PyValue.vStr s) = true := by simp [pyTruthy, hs]
  cases conversion with
  | force =>
    cases hcf : convert_force s with
    | ok v => simp [convert_value, hcf, exErr_ok, exErr_error]
    | error e => simp [convert_value, hcf, exErr_ok, exErr_error]
  | noconv =>
    simp [convert_value, exErr_ok]
  | given =>
    cases datatype with
    | none => simp [convert_value, convert_given, hT, exErr_ok]
    | some dt =>
      by_cases h1 : dt = "int"
      · subst h1
        cases hpi : pyInt? s with
        | none => simp [convert_value, convert_given, hT, pyIntFn, hpi, exErr_ok, exErr_error]
        | some n => simp [convert_value, convert_given, hT, pyIntFn, hpi, exErr_ok, exErr_error]
      · by_cases h2 : dt = "float"
        · subst h2
          cases hpf : pyFloat? s with
          | none => simp [convert_value, convert_given, hT, pyFloatFn, hpf, exErr_ok, exErr_error]
          | some x => simp [convert_value, convert_given, hT, pyFloatFn, hpf, exErr_ok, exErr_error]
        · by_cases h3 : dt = "string"
          · subst h3; simp [convert_value, convert_given, hT, exErr_ok]
          · by_cases h4 : dt = "bool" ∨ dt = "boolean"
            · rcases h4 with h4 | h4 <;> subst h4 <;>
                simp [convert_value, convert_given, hT, exErr_boolLiteral, exErr_ok]
            · push_neg at h4
              simp [convert_value, convert_given, hT, h1, h2, h3, h4.1, h4.2, exErr_ok]
  | always =>
    cases hcf : convert_force s with
    | error e => simp [convert_value, hcf, exErr_error]
    | ok v =>
      cases datatype with
      | none => simp [convert_value, convert_given, hT, hcf, exErr_ok]
      | some dt =>
        by_cases h1 : dt = "int"
        · subst h1
          cases hpi : pyInt? s with
          | none => simp [convert_value, convert_given, hT, hcf, pyIntFn, hpi, exErr_ok, exErr_error]
          | some n => simp [convert_value, convert_given, hT, hcf, pyIntFn, hpi, exErr_ok, exErr_error]
        · by_cases h2 : dt = "float"
          · subst h2
            cases hpf : pyFloat? s with
            | none =>
              simp [convert_value, convert_given, hT, hcf, pyFloatFn, hpf, exErr_ok, exErr_error]
            | some x =>
              simp [convert_value, convert_given, hT, hcf, pyFloatFn, hpf, exErr_ok, exErr_error]
          · by_cases h3 : dt = "string"
            · subst h3; simp [convert_value, convert_given, hT, hcf, exErr_ok]
            · by_cases h4 : dt = "bool" ∨ dt = "boolean"
              · rcases h4 with h4 | h4 <;> subst h4 <;> cases v <;>
                  simp [convert_value, convert_given, hT, hcf, forceRetyped,
                        exErr_boolLiteral, exErr_ok, exErr_error]
              · push_neg at h4
                simp [convert_value, convert_given, hT, hcf, h1, h2, h3, h4.1, h4.2, exErr_ok]

/-- C4 witness: the amended characterization at a concrete instance — the
string "abc" with declared type "int" under Given mode is a hard failure. -/
theorem c4_witness :
    exErr (convert_value (PyValue.vStr "abc") Conv.given (some "int")) = true := by
  exact ( c4_theorem "abc" (by decide) Conv.given (some "int")).mpr
    (Or.inl ⟨Or.inr rfl, rfl, by rfl⟩)

/-! ## XML elements and the generic flattener (xml2python / parse_element)

An `ElementTree` element is its tag, its attribute dictionary, its text and
its children.  `element.attrib` is the element's own mutable dictionary:
`parse_element` aliases it (`attribs = element.attrib`) and writes the
coerced attribute values back into it, so the flattener returns both its
output node and the element as it stands after the call. -/

structure Elem where
  tag : String
  attrib : List (String × PyValue)
  text : Option String
  children : List Elem

/-- Dictionary lookup (`d.get(k)` / `d[k]` when present). -/
def pyGet (a : List (String × PyValue)) (k : String) : Option PyValue :=
  (a.find? (fun p => p.1 = k)).map Prod.snd

/-- `d.get(k)` where an absent key is Python `None`. -/
def pyGetD (a : List (String × PyValue)) (k : String) : PyValue :=
  (pyGet a k).getD PyValue.vNone

def optTruthy (o : Option PyValue) : Bool :=
  match o with
  | some v => pyTruthy v
  | Option.none => false

/-- The `dataType` attribute as passed to `convert_value`: only string
values can equal the string literals the source compares against. -/
def strOfPy : Option PyValue → Option String
  | some (PyValue.vStr s) => some s
  | _ => Option.none

/-- The output dictionary of `parse_element` (plus the `children` key that
`xml2python` adds). -/
structure Node where
  tag : String
  name : PyValue
  text : Option String
  attributes : List (String × PyValue)
  value : PyValue
  children : List Node

/-- The `for key, val in attribs.items()` loop of `parse_element`: every
attribute except the reserved "value" key is rewritten through
`convert_value` with the default datatype; the first exception escapes. -/
def mutateAttribs (conversion : Conv) : List (String × PyValue) → Except PyErr (List (String × PyValue))
  | [] => Except.ok []
  | (k, v) :: rest =>
    if k = "value" then
      match mutateAttribs conversion rest with
      | Except.ok r => Except.ok ((k, v) :: r)
      | Except.error e => Except.error e
    else
      match convert_value v conversion Option.none with
      | Except.ok w =>
        match mutateAttribs conversion rest with
        | Except.ok r => Except.ok ((k, w) :: r)
        | Except.error e => Except.error e
      | Except.error e => Except.error e

/-- `parse_element(element, conversion, stripws)` (src/voevent.py lines
22-49), returning the output node (children still empty) together with the
element whose attribute dictionary it rewrote in place. -/
def parse_element (element : Elem) (conversion : Conv) (stripws : Bool) : Except PyErr (Node × Elem) :=
  let attribs := element.attrib
  let datatype : Option String := strOfPy (pyGet attribs "dataType")
  let text : Option String :=
    match element.text with
    | some t => if t ≠ "" then some (if stripws then pyStrip t else t) else Option.none
    | Option.none => Option.none
  let valueE : Except PyErr PyValue :=
    if optTruthy (pyGet attribs "value") then
      convert_value (pyGetD attribs "value") conversion datatype
    else
      match text with
      | some t =>
        if t ≠ "" then convert_value (PyValue.vStr t) conversion datatype
        else Except.ok PyValue.vNone
      | Option.none => Except.ok PyValue.vNone
  match valueE with
  | Except.error e => Except.error e
  | Except.ok value =>
    let name : PyValue :=
      if optTruthy (pyGet attribs "name") then pyGetD attribs "name" else PyValue.vStr element.tag
    match mutateAttribs conversion attribs with
    | Except.error e => Except.error e
    | Except.ok attribs2 =>
      Except.ok ({ tag := element.tag, name := name, text := text,
                   attributes := attribs2, value := value, children := [] },
                 { element with attrib := attribs2 })

/-- The loop body of `xml2python` over a list of children: each child is
flattened (mutating its attributes) and then recursed into, in document
order. -/
def xml2list (conversion : Conv) (stripws : Bool) : List Elem → Except PyErr (List Node × List Elem)
  | [] => Except.ok ([], [])
  | child :: rest =>
    match parse_element child conversion stripws with
    | Except.error e => Except.error e
    | Except.ok (entry, child1) =>
      match xml2list conversion stripws child.children with
      | Except.error e => Except.error e
      | Except.ok (kids, cch) =>
        match xml2list conversion stripws rest with
        | Except.error e => Except.error e
        | Except.ok (nds, rest1) =>
          Except.ok ({ entry with children := kids } :: nds,
                     { child1 with children := cch } :: rest1)
termination_by cs => sizeOf cs
decreasing_by
  all_goals obtain ⟨t, a, x, ch⟩ := child
  all_goals simp
  all_goals omega

/-- `xml2python(element, conversion, stripws)` with the default
`parse_root=False`: flattens the children of `element`, returning the node
list and the element with its descendants mutated. -/
def xml2python (element : Elem) (conversion : Conv) (stripws : Bool) : Except PyErr (List Node × Elem) :=
  match xml2list conversion stripws element.children with
  | Except.error e => Except.error e
  | Except.ok (data, cs) => Except.ok (data, { element with children := cs })

/-- `xml2python(element, ..., parse_root=True)`: the children pass first,
then `parse_element` on the element itself. -/
def xml2python_root (element : Elem) (conversion : Conv) (stripws : Bool) : Except PyErr (Node × Elem) :=
  match xml2list conversion stripws element.children with
  | Except.error e => Except.error e
  | Except.ok (data, cs) =>
    match parse_element { element with children := cs } conversion stripws with
    | Except.error e => Except.error e
    | Except.ok (entry, element2) =>
      Except.ok ({ entry with children := data }, element2)

/-! ## Claims about the flattener -/

lemma convert_value_noconv (v : PyValue) (datatype : Option String) :
    convert_value v Conv.noconv datatype = Except.ok v := rfl

lemma mutateAttribs_noconv (a : List (String × PyValue)) :
    mutateAttribs Conv.noconv a = Except.ok a := by
  induction a with
  | nil => rfl
  | cons p rest ih =>
    obtain ⟨k, v⟩ := p
    by_cases hk : k = "value" <;> simp [mutateAttribs, hk, ih, convert_value_noconv]

/-- Under mode given with no declared type both blocks of `convert_value`
are skipped (the second block matches no declared-type branch), so the
attribute pass — which never passes a datatype — is the identity. -/
lemma convert_value_given (v : PyValue) :
    convert_value v Conv.given Option.none = Except.ok v := by
  by_cases h : pyTruthy v = true <;>
    simp [convert_value, convert_given, h]

lemma mutateAttribs_given (a : List (String × PyValue)) :
    mutateAttribs Conv.given a = Except.ok a := by
  induction a with
  | nil => rfl
  | cons p rest ih =>
    obtain ⟨k, v⟩ := p
    by_cases hk : k = "value" <;> simp [mutateAttribs, hk, ih, convert_value_given]

/-- Under conversion mode none every coercion is the identity, so the
flattener succeeds and hands the element back unchanged. -/
lemma parse_element_noconv (e : Elem) (stripws : Bool) :
    ∃ nd, parse_element e Conv.noconv stripws = Except.ok (nd, e) := by
  obtain ⟨tg, ab, tx, ch⟩ := e
  have hmut := mutateAttribs_noconv ab
  by_cases hv : optTruthy (pyGet ab "value") = true
  · exact ⟨_, by simp [parse_element, hv, convert_value_noconv, hmut]; rfl⟩
  · rcases tx with _ | t
    · exact ⟨_, by simp [parse_element, hv, hmut]; rfl⟩
    · by_cases h1 : t = ""
      · subst h1
        exact ⟨_, by simp [parse_element, hv, hmut]; rfl⟩
      · by_cases h2 : (if stripws then pyStrip t else t) = ""
        · exact ⟨_, by simp [parse_element, hv, h1, h2, hmut, convert_value_noconv]; rfl⟩
        · exact ⟨_, by simp [parse_element, hv, h1, h2, hmut, convert_value_noconv]; rfl⟩

/-- Under mode given the attribute write-back is the identity, so a
successful flattening hands the element back unchanged (the call can still
fail: a declared dataType drives the primary-value coercion). -/
lemma parse_element_given (e : Elem) (stripws : Bool) (nd : Node) (e2 : Elem)
    (h : parse_element e Conv.given stripws = Except.ok (nd, e2)) : e2 = e := by
  obtain ⟨tg, ab, tx, ch⟩ := e
  simp only [parse_element, mutateAttribs_given] at h
  split at h
  · exact Except.noConfusion h
  · simp only [Except.ok.injEq, Prod.mk.injEq] at h
    exact h.2.symm

/-- Whatever the mode, a successful `parse_element` changes only the
attribute dictionary of its element. -/
lemma parse_element_preserves (e : Elem) (conversion : Conv) (stripws : Bool) (nd : Node) (e2 : Elem)
    (h : parse_element e conversion stripws = Except.ok (nd, e2)) :
    e2.tag = e.tag ∧ e2.text = e.text ∧ e2.children = e.children := by
  simp only [parse_element] at h
  split at h
  · exact absurd h (by simp)
  · split at h
    · exact absurd h (by simp)
    · simp only [Except.ok.injEq, Prod.mk.injEq] at h
      obtain ⟨-, he⟩ := h
      subst he
      exact ⟨rfl, rfl, rfl⟩

def elemX : Elem :=
  { tag := "Param", attrib := [("foo", PyValue.vStr "2")], text := Option.none, children := [] }

def elemXMut : Elem :=
  { tag := "Param", attrib := [("foo", PyValue.vInt 2)], text := Option.none, children := [] }

def nodeX : Node :=
  { tag := "Param", name := PyValue.vStr "Param", text := Option.none,
    attributes := [("foo", PyValue.vInt 2)], value := PyValue.vNone, children := [] }

/-- C1 counterexample: flattening an element with attribute foo="2" under
the default Force mode (and likewise under Always) rewrites the element's
own attribute dictionary to foo=2 (an integer), so the input element is
not left unchanged. -/
theorem c1_counterexample :
    parse_element elemX Conv.force true = Except.ok (nodeX, elemXMut) ∧
    parse_element elemX Conv.always true = Except.ok (nodeX, elemXMut) ∧
    elemXMut.attrib ≠ elemX.attrib := by
  refine ⟨rfl, rfl, ?_⟩
  decide

/-- C1 amended: a successful flattening leaves the element's tag, text and
children unchanged in every mode, but under the coercing modes (force,
always) it rewrites the attribute dictionary in place, coercing every
attribute except "value" (see the counterexample); under mode none the
flattener always succeeds and hands the element back unchanged, and under
mode given — where the attribute pass supplies no declared type, making the
write-back the identity — every successful flattening hands the element
back unchanged as well. -/
theorem c1_theorem :
    (∀ (e : Elem) (conversion : Conv) (stripws : Bool) (nd : Node) (e2 : Elem),
        parse_element e conversion stripws = Except.ok (nd, e2) →
        e2.tag = e.tag ∧ e2.text = e.text ∧ e2.children = e.children) ∧
    (∀ (e : Elem) (stripws : Bool), ∃ nd, parse_element e Conv.noconv stripws = Except.ok (nd, e)) ∧
    (∀ (e : Elem) (stripws : Bool) (nd : Node) (e2 : Elem),
        parse_element e Conv.given stripws = Except.ok (nd, e2) → e2 = e) :=
  ⟨fun e conversion stripws nd e2 h => parse_element_preserves e conversion stripws nd e2 h,
   fun e stripws => parse_element_noconv e stripws,
   fun e stripws nd e2 h => parse_element_given e stripws nd e2 h⟩

/-- C1 witness: the amended theorem applied to the concrete mutated pair of
the counterexample — tag, text and children are preserved there. -/
theorem c1_witness :
    elemXMut.tag = elemX.tag ∧ elemXMut.text = elemX.text ∧ elemXMut.children = elemX.children :=
  c1_theorem.1 elemX Conv.force true nodeX elemXMut rfl

def elemY : Elem := { tag := "root", attrib := [], text := Option.none, children := [elemX] }

/-- The second of two successive flattener runs on the same element. -/
def secondRun (e : Elem) (conversion : Conv) (stripws : Bool) :
    Option (Except PyErr (List Node × Elem)) :=
  match xml2python e conversion stripws with
  | Except.ok p => some (xml2python p.2 conversion stripws)
  | Except.error _ => Option.none

/-- C2 counterexample: on an element whose child carries the attribute
foo="2", the first Force-mode run succeeds and rewrites the child's
attribute to the integer 2; the second run then calls `.lower()` on that
integer and dies with AttributeError, so two successive invocations do not
both succeed. -/
theorem c2_counterexample :
    (∃ r, xml2python elemY Conv.force true = Except.ok r) ∧
    secondRun elemY Conv.force true = some (Except.error PyErr.attributeError) := by
  have h1 : parse_element elemX Conv.force true = Except.ok (nodeX, elemXMut) := rfl
  have h1b : parse_element elemXMut Conv.force true = Except.error PyErr.attributeError := rfl
  have hch : elemX.children = ([] : List Elem) := rfl
  have hY : elemY.children = [elemX] := rfl
  have hen : ({ nodeX with children := [] } : Node) = nodeX := rfl
  have hee : ({ elemXMut with children := [] } : Elem) = elemXMut := rfl
  have hnil : xml2list Conv.force true [] = Except.ok ([], []) := by
    simp [xml2list]
  have hone : xml2list Conv.force true [elemX] = Except.ok ([nodeX], [elemXMut]) := by
    simp [xml2list, h1, hch, hnil, hen, hee]
  have htwo : xml2list Conv.force true [elemXMut] = Except.error PyErr.attributeError := by
    simp [xml2list, h1b]
  constructor
  · exact ⟨_, by simp [xml2python, hY, hone]; rfl⟩
  · simp [secondRun, xml2python, hY, hone, htwo]

lemma xml2list_noconv_aux (stripws : Bool) :
    ∀ (n : Nat) (cs : List Elem), sizeOf cs < n →
      ∃ ns, xml2list Conv.noconv stripws cs = Except.ok (ns, cs) := by
  intro n
  induction n with
  | zero => intro cs h; omega
  | succ k ih =>
    intro cs h
    cases cs with
    | nil => exact ⟨[], by simp [xml2list]⟩
    | cons c rest =>
      obtain ⟨tg, ab, tx, ch⟩ := c
      have hch : sizeOf ch < k := by simp at h; omega
      have hrest : sizeOf rest < k := by simp at h; omega
      obtain ⟨nd, hpe⟩ := parse_element_noconv (Elem.mk tg ab tx ch) stripws
      obtain ⟨ns1, h1⟩ := ih ch hch
      obtain ⟨ns2, h2⟩ := ih rest hrest
      exact ⟨_, by simp [xml2list, hpe, h1, h2]; rfl⟩

lemma xml2list_noconv (stripws : Bool) (cs : List Elem) :
    ∃ ns, xml2list Conv.noconv stripws cs = Except.ok (ns, cs) :=
  xml2list_noconv_aux stripws (sizeOf cs + 1) cs (by omega)

lemma xml2list_given_aux (stripws : Bool) :
    ∀ (n : Nat) (cs : List Elem) (ns : List Node) (cs2 : List Elem), sizeOf cs < n →
      xml2list Conv.given stripws cs = Except.ok (ns, cs2) → cs2 = cs := by
  intro n
  induction n with
  | zero => intro cs ns cs2 h; omega
  | succ k ih =>
    intro cs ns cs2 hsz h
    cases cs with
    | nil =>
      simp only [xml2list, Except.ok.injEq, Prod.mk.injEq] at h
      exact h.2.symm
    | cons c rest =>
      obtain ⟨tg, ab, tx, ch⟩ := c
      have hch : sizeOf ch < k := by simp at hsz; omega
      have hrest : sizeOf rest < k := by simp at hsz; omega
      simp only [xml2list] at h
      rcases hpe : parse_element (Elem.mk tg ab tx ch) Conv.given stripws with e | p
      · simp only [hpe] at h
        exact Except.noConfusion h
      · obtain ⟨entry, child1⟩ := p
        simp only [hpe] at h
        rcases hk : xml2list Conv.given stripws ch with e | q
        · simp only [hk] at h
          exact Except.noConfusion h
        · obtain ⟨kids, cch⟩ := q
          simp only [hk] at h
          rcases hr : xml2list Conv.given stripws rest with e | r
          · simp only [hr] at h
            exact Except.noConfusion h
          · obtain ⟨nds, rest1⟩ := r
            simp only [hr, Except.ok.injEq, Prod.mk.injEq] at h
            obtain ⟨-, hcs2⟩ := h
            have h1 : child1 = Elem.mk tg ab tx ch :=
              parse_element_given (Elem.mk tg ab tx ch) stripws entry child1 hpe
            have h2 : cch = ch := ih ch kids cch hch hk
            have h3 : rest1 = rest := ih rest nds rest1 hrest hr
            subst h1 h2 h3
            exact hcs2.symm

lemma xml2list_given (stripws : Bool) (cs : List Elem) (ns : List Node) (cs2 : List Elem)
    (h : xml2list Conv.given stripws cs = Except.ok (ns, cs2)) : cs2 = cs :=
  xml2list_given_aux stripws (sizeOf cs + 1) cs ns cs2 (by omega) h

/-- Under mode given a successful flattener run never mutates the element. -/
lemma xml2python_given (e : Elem) (stripws : Bool) (ns : List Node) (e2 : Elem)
    (h : xml2python e Conv.given stripws = Except.ok (ns, e2)) : e2 = e := by
  obtain ⟨tg, ab, tx, ch⟩ := e
  simp only [xml2python] at h
  rcases hl : xml2list Conv.given stripws ch with er | q
  · simp only [hl] at h
    exact Except.noConfusion h
  · obtain ⟨data, cs⟩ := q
    simp only [hl, Except.ok.injEq, Prod.mk.injEq] at h
    obtain ⟨-, he⟩ := h
    have hc : cs = ch := xml2list_given stripws ch data cs hl
    subst hc
    exact he.symm

/-- C2 amended: under conversion modes none and given the flattener never
rewrites the element — under none two successive invocations always both
succeed with structurally equal outputs and the element is handed back
unchanged; under given a run can fail (a declared dataType drives the
primary-value coercion), but whenever the first invocation succeeds it
hands the element back unchanged and the second invocation succeeds with
the identical output.  Under the default force mode the first invocation
rewrites attribute values in place, and a second invocation fails with
AttributeError as soon as any attribute was coerced to a non-string (see
the counterexample). -/
theorem c2_theorem :
    (∀ (e : Elem) (stripws : Bool),
      ∃ ns, xml2python e Conv.noconv stripws = Except.ok (ns, e) ∧
        secondRun e Conv.noconv stripws = some (Except.ok (ns, e))) ∧
    (∀ (e : Elem) (stripws : Bool) (ns : List Node) (e2 : Elem),
      xml2python e Conv.given stripws = Except.ok (ns, e2) →
        e2 = e ∧ secondRun e Conv.given stripws = some (Except.ok (ns, e))) := by
  constructor
  · intro e stripws
    obtain ⟨tg, ab, tx, ch⟩ := e
    obtain ⟨ns, h⟩ := xml2list_noconv stripws ch
    have hx : xml2python (Elem.mk tg ab tx ch) Conv.noconv stripws =
        Except.ok (ns, Elem.mk tg ab tx ch) := by
      simp [xml2python, h]
    exact ⟨ns, hx, by simp [secondRun, hx]⟩
  · intro e stripws ns e2 h
    have he : e2 = e := xml2python_given e stripws ns e2 h
    subst he
    exact ⟨rfl, by simp [secondRun, h]⟩

/-! ## ElementTree find / findall and Python dicts -/

/-- `element.findall(tag)` for a plain tag: the matching direct children in
document order. -/
def findall (e : Elem) (tag : String) : List Elem :=
  e.children.filter (fun c => c.tag = tag)

/-- One step of an ElementPath `a/b/...` query, in document order. -/
def findallPathFrom (path : List String) (es : List Elem) : List Elem :=
  match path with
  | [] => es
  | t :: rest => findallPathFrom rest (es.flatMap (fun c => findall c t))

/-- `element.find(path)` for a `/`-separated path of plain tags: the first
match in document order, `Option.none` when there is none. -/
def findPath (e : Elem) (path : List String) : Option Elem :=
  (findallPathFrom path [e]).head?

/-- `element.find(tag)` for a single plain tag. -/
def find1 (e : Elem) (tag : String) : Option Elem :=
  findPath e [tag]

/-- Python dict assignment `d[k] = v`: update in place when the key exists
(its position is kept), append otherwise. -/
def dictSet {κ α : Type} [DecidableEq κ] (d : List (κ × α)) (k : κ) (v : α) : List (κ × α) :=
  if (d.find? (fun p => p.1 = k)).isSome then
    d.map (fun p => if p.1 = k then (k, v) else p)
  else d ++ [(k, v)]

/-- `element.text` as the Python value `convert_value` receives. -/
def textPy (c : Elem) : PyValue :=
  match c.text with
  | some s => PyValue.vStr s
  | Option.none => PyValue.vNone

/-! ## The VOEvent document state

One field per attribute the `VOEvent` instance can carry.  Fields that
`__init__` does not set (`options`, `version`, `role`, `ivorn`, `eventid`,
`citations`, `description`, `coordsystem`, `coordtime`) are `Option`s whose
`Option.none` means the attribute is still unset: reading it raises
AttributeError.  The section dictionaries are association lists in
insertion order.  The only value ever stored in `self.options` is
`force`, since `parse` stores nothing when its argument is not `None`. -/

inductive WhoVal where
  | v (x : PyValue)
  | author (d : List (String × PyValue))

inductive WhatVal where
  | param (value : PyValue) (unit : Option PyValue) (ucd : Option PyValue)
  | group (entries : List (PyValue × WhatVal))

inductive Pos2D where
  | empty
  | pos (ra : PyFloat) (dec : PyFloat) (error : Option PyFloat)
deriving DecidableEq, Repr

inductive WWVal where
  | pos (p : Pos2D)
  | v (x : PyValue)
deriving DecidableEq, Repr

structure Inference where
  probability : PyValue
  relation : PyValue
  name : Option String
  concept : Option (List String)

structure WhyOut where
  importance : PyValue
  expires : PyValue
  description : PyValue
  inference : Option Inference

structure VOSt where
  options : Option Conv
  version : Option (Int × Int)
  role : Option PyValue
  ivorn : Option PyValue
  eventid : Option (String × String × String)
  Who : Option Elem
  What : Option Elem
  WhereWhen : Option Elem
  How : Option Elem
  Why : Option Elem
  Citations : Option Elem
  Description : Option Elem
  Reference : Option Elem
  who : List (String × WhoVal)
  what : List (PyValue × WhatVal)
  wherewhen : List (String × WWVal)
  how : List (String × PyValue)
  why : Option WhyOut
  citations : Option (List (PyValue × Option String))
  description : Option (List PyValue)
  position2d : Pos2D
  coordsystem : Option PyValue
  coordtime : Option PyValue

/-- The state `__init__` leaves behind. -/
def initState : VOSt :=
  { options := Option.none, version := Option.none, role := Option.none,
    ivorn := Option.none, eventid := Option.none,
    Who := Option.none, What := Option.none, WhereWhen := Option.none,
    How := Option.none, Why := Option.none, Citations := Option.none,
    Description := Option.none, Reference := Option.none,
    who := [], what := [], wherewhen := [], how := [],
    why := Option.none, citations := Option.none, description := Option.none,
    position2d := Pos2D.empty, coordsystem := Option.none, coordtime := Option.none }

/-! ## VOEvent.parse: identity, version, role and IVORN validation -/

def dropPrefixChars : List Char → List Char → Option (List Char)
  | [], cs => some cs
  | _ :: _, [] => Option.none
  | p :: ps, c :: cs => if c = p then dropPrefixChars ps cs else Option.none

def closeTagOk (cs : List Char) : Bool :=
  (dropPrefixChars "\x7dVOEvent".toList cs).isSome

/-- The optional `(\.\d(\.\d)?)?` version tail followed by the literal
closing of the root-tag regex. -/
def versionTailOk (cs : List Char) : Bool :=
  closeTagOk cs ||
    (match cs with
     | '.' :: d :: rest =>
       d.isDigit &&
         (closeTagOk rest ||
           (match rest with
            | '.' :: d2 :: rest2 => d2.isDigit && closeTagOk rest2
            | _ => false))
     | _ => false)

def voeventTagMatchAt (cs : List Char) : Bool :=
  match dropPrefixChars "\x7bhttp://www.ivoa.net/xml/VOEvent/v".toList cs with
  | some rest =>
    match rest with
    | d :: rest2 => d.isDigit && versionTailOk rest2
    | [] => false
  | Option.none => false

/-- `re.search` of the root-tag pattern over the tag string: a match may
start at any position. -/
def rootTagSearch (s : String) : Bool :=
  s.toList.tails.any voeventTagMatchAt

/-- The IVORN decomposition of `VOEvent.parse` (src/voevent.py lines
287-292): split on '/' with maxsplit 4, take parts 3 and 4 (IndexError
when missing), and unpack part 4 around its first '#' (ValueError when it
has none). -/
def parse_ivorn (s : String) : Except PyErr (String × String × String) :=
  let keys := pySplitCharN s '/' 4
  match keys.get? 2 with
  | Option.none => Except.error PyErr.indexError
  | some authority =>
    match keys.get? 3 with
    | Option.none => Except.error PyErr.indexError
    | some k3 =>
      match pySplitCharN k3 '#' 1 with
      | [resourcekey, localid] => Except.ok (authority, resourcekey, localid)
      | _ => Except.error PyErr.valueError

/-- The validation prefix of `VOEvent.parse` (lines 267-292): store the
options only when the argument is `None`, check the root tag against the
namespace regex, parse and check the version, the role and the IVORN. -/
def parse_prelude (root : Elem) (options : Option Unit) : Except PyErr VOSt :=
  let st0 := initState
  let st1 : VOSt :=
    match options with
    | Option.none => { st0 with options := some Conv.force }
    | some _ => st0
  if rootTagSearch root.tag = false then Except.error PyErr.assertionError
  else
    match pyGet root.attrib "version" with
    | Option.none => Except.error PyErr.keyError
    | some vval =>
      match vval with
      | PyValue.vStr vs =>
        match (pySplitCharAll vs '.').mapM pyInt? with
        | Option.none => Except.error PyErr.valueError
        | some version =>
          let mm : Int × Int :=
            if version.length = 1 then (version.headI, 0)
            else (version.headI, (version.get? 1).getD 0)
          if mm.1 ≠ 2 then Except.error PyErr.assertionError
          else
            let st2 := { st1 with version := some mm }
            match pyGet root.attrib "role" with
            | Option.none => Except.error PyErr.keyError
            | some rv =>
              let st3 := { st2 with role := some rv }
              if rv ∉ [PyValue.vStr "observation", PyValue.vStr "prediction",
                       PyValue.vStr "utility", PyValue.vStr "test"] then
                Except.error PyErr.assertionError
              else
                match pyGet root.attrib "ivorn" with
                | Option.none => Except.error PyErr.keyError
                | some iv =>
                  let st4 := { st3 with ivorn := some iv }
                  match iv with
                  | PyValue.vStr ivs =>
                    match parse_ivorn ivs with
                    | Except.error e => Except.error e
                    | Except.ok eid => Except.ok { st4 with eventid := some eid }
                  | _ => Except.error PyErr.attributeError
      | _ => Except.error PyErr.attributeError

/-! ## Section extractors -/

/-- The fixed pairing of Author grandchild tags to output keys (the zipped
`keys1`/`keys2` lists of `parse_who`). -/
def authorKey2 (tag : String) : Option String :=
  if tag = "title" then some "title"
  else if tag = "shortName" then some "short"
  else if tag = "logoURL" then some "logo"
  else if tag = "contactName" then some "name"
  else if tag = "contactEmail" then some "email"
  else if tag = "contactPhone" then some "phone"
  else if tag = "contributor" then some "contributor"
  else Option.none

def authorDict : List Elem → List (String × PyValue) → List (String × PyValue)
  | [], acc => acc
  | gc :: rest, acc =>
    match authorKey2 gc.tag with
    | some k2 => authorDict rest (dictSet acc k2 (textPy gc))
    | Option.none => authorDict rest acc

def parse_who_children : List Elem → VOSt → Except PyErr VOSt
  | [], st => Except.ok st
  | c :: rest, st =>
    if c.tag = "Description" then
      parse_who_children rest { st with who := dictSet st.who "description" (WhoVal.v (textPy c)) }
    else if c.tag = "AuthorIVORN" then
      parse_who_children rest { st with who := dictSet st.who "ivorn" (WhoVal.v (textPy c)) }
    else if c.tag = "Date" then
      match convert_value (textPy c) Conv.force Option.none with
      | Except.error e => Except.error e
      | Except.ok dv =>
        parse_who_children rest { st with who := dictSet st.who "date" (WhoVal.v dv) }
    else if c.tag = "Reference" then
      parse_who_children rest { st with who := dictSet st.who "reference" (WhoVal.v (textPy c)) }
    else if c.tag = "Author" then
      parse_who_children rest
        { st with who := dictSet st.who "author" (WhoVal.author (authorDict c.children [])) }
    else parse_who_children rest st

/-- `parse_who` (lines 299-327): at most one Who element; recognized
children populate the who dictionary (the final prints are I/O only). -/
def parse_who (root : Elem) (st : VOSt) : Except PyErr VOSt :=
  let Who := findall root "Who"
  if Who.length ≤ 1 then
    let st1 := { st with who := [] }
    match Who.head? with
    | Option.none => Except.ok st1
    | some w => parse_who_children w.children { st1 with Who := some w }
  else Except.error PyErr.assertionError

/-- The body of `parse_what_group`'s loop (lines 331-347): Param and Group
children require a "name" attribute (KeyError otherwise); Params coerce
their "value" with declared-type awareness, Groups recurse. -/
def parse_what_list (conversion : Conv) : List Elem → List (PyValue × WhatVal) →
    Except PyErr (List (PyValue × WhatVal))
  | [], acc => Except.ok acc
  | el :: rest, acc =>
    if el.tag ≠ "Param" ∧ el.tag ≠ "Group" then parse_what_list conversion rest acc
    else
      match pyGet el.attrib "name" with
      | Option.none => Except.error PyErr.keyError
      | some name =>
        if el.tag = "Param" then
          match convert_value (pyGetD el.attrib "value") conversion
              (strOfPy (pyGet el.attrib "dataType")) with
          | Except.error e => Except.error e
          | Except.ok value =>
            parse_what_list conversion rest
              (dictSet acc name (WhatVal.param value (pyGet el.attrib "unit") (pyGet el.attrib "ucd")))
        else
          match parse_what_list conversion el.children [] with
          | Except.error e => Except.error e
          | Except.ok sub => parse_what_list conversion rest (dictSet acc name (WhatVal.group sub))
termination_by els _ => sizeOf els
decreasing_by
  all_goals obtain ⟨tg, ab, tx, ch⟩ := el
  all_goals simp
  all_goals omega

/-- `parse_what_group(group)` reads `self.options['conversion']` before
anything else: AttributeError when `self.options` was never assigned. -/
def parse_what_group (st : VOSt) (group : Elem) : Except PyErr (List (PyValue × WhatVal)) :=
  match st.options with
  | Option.none => Except.error PyErr.attributeError
  | some conversion => parse_what_list conversion group.children []

/-- `parse_what` (lines 349-356). -/
def parse_what (root : Elem) (st : VOSt) : Except PyErr VOSt :=
  let What := findall root "What"
  if What.length ≤ 1 then
    match What.head? with
    | Option.none => Except.ok st
    | some w =>
      let st1 := { st with What := some w }
      match parse_what_group st1 w with
      | Except.error e => Except.error e
      | Except.ok what => Except.ok { st1 with what := what }
  else Except.error PyErr.assertionError

/-- The whitelist of `parse_coord_system`, duplicates included as in the
source. -/
def coordWhitelist : List PyValue :=
  [PyValue.vStr "TT-ICRS-TOPO", PyValue.vStr "UTC-ICRS-TOPO", PyValue.vStr "TT-FK5-TOPO",
   PyValue.vStr "UTC-FK5-TOPO", PyValue.vStr "GPS-ICRS-TOPO", PyValue.vStr "GPS-ICRS-TOPO",
   PyValue.vStr "GPS-FK5-TOPO", PyValue.vStr "GPS-FK5-TOPO", PyValue.vStr "TT-ICRS-GEO",
   PyValue.vStr "UTC-ICRS-GEO", PyValue.vStr "TT-FK5-GEO", PyValue.vStr "UTC-FK5-GEO",
   PyValue.vStr "GPS-ICRS-GEO", PyValue.vStr "GPS-ICRS-GEO", PyValue.vStr "TDB-ICRS-BARY",
   PyValue.vStr "TDB-FK5-BARY", PyValue.vStr "UTC-GEOD-TOPO"]

/-- `parse_coord_system` (lines 358-370): absence of the AstroCoordSystem
element yields `None`; when it is present its "id" attribute is mandatory
(`attrib['id']`, KeyError if missing) and must lie in the whitelist
(ValueError otherwise). -/
def parse_coord_system (el : Elem) : Except PyErr PyValue :=
  match findPath el ["AstroCoordSystem"] with
  | Option.none => Except.ok PyValue.vNone
  | some sysEl =>
    match pyGet sysEl.attrib "id" with
    | Option.none => Except.error PyErr.keyError
    | some v =>
      if v ∈ coordWhitelist then Except.ok v
      else Except.error PyErr.valueError

/-- `float(element.text)`: TypeError on `None`, ValueError on a
non-numeric string. -/
def pyFloatOfText (t : Option String) : Except PyErr PyFloat :=
  match t with
  | Option.none => Except.error PyErr.typeError
  | some s =>
    match pyFloat? s with
    | some x => Except.ok x
    | Option.none => Except.error PyErr.valueError

/-- The Position2D block of `parse_wherewhen` (lines 380-394): the
position is read only when Name1/Name2 are exactly "RA"/"Dec"; the error
radius is converted before the C1/C2 presence test; the wherewhen entry is
written (with whatever `position2d` then holds) whenever the names
matched. -/
def parse_position2d (pos : Elem) (st : VOSt) : Except PyErr VOSt :=
  match findPath pos ["Name1"], findPath pos ["Name2"] with
  | some n1, some n2 =>
    if n1.text = some "RA" ∧ n2.text = some "Dec" then
      match (match findPath pos ["Error2Radius"] with
             | Option.none => Except.ok (Option.none : Option PyFloat)
             | some er =>
               match pyFloatOfText er.text with
               | Except.ok x => Except.ok (some x)
               | Except.error e => Except.error e) with
      | Except.error e => Except.error e
      | Except.ok errv =>
        match findPath pos ["Value2", "C1"], findPath pos ["Value2", "C2"] with
        | some ra, some dec =>
          match pyFloatOfText ra.text with
          | Except.error e => Except.error e
          | Except.ok rav =>
            match pyFloatOfText dec.text with
            | Except.error e => Except.error e
            | Except.ok decv =>
              let st2 := { st with position2d := Pos2D.pos rav decv errv }
              Except.ok { st2 with
                wherewhen := dictSet st2.wherewhen "position2d" (WWVal.pos st2.position2d) }
        | _, _ =>
          Except.ok { st with
            wherewhen := dictSet st.wherewhen "position2d" (WWVal.pos st.position2d) }
    else Except.ok st
  | _, _ => Except.ok st

/-- The ObservationLocation body of `parse_wherewhen` (lines 379-401):
position, coordinate system, observation time. -/
def parse_wherewhen_obsloc (obsloc : Elem) (st : VOSt) : Except PyErr VOSt :=
  match (match findPath obsloc ["AstroCoords", "Position2D"] with
         | Option.none => Except.ok st
         | some pos => parse_position2d pos st) with
  | Except.error e => Except.error e
  | Except.ok st1 =>
    match parse_coord_system obsloc with
    | Except.error e => Except.error e
    | Except.ok cs =>
      let st2 := { st1 with
        coordsystem := some cs
        wherewhen := dictSet st1.wherewhen "system" (WWVal.v cs) }
      match (match findPath obsloc ["AstroCoords", "Time", "TimeInstant", "ISOTime"] with
             | Option.none => Except.ok PyValue.vNone
             | some tEl => convert_value (textPy tEl) Conv.force Option.none) with
      | Except.error e => Except.error e
      | Except.ok tv =>
        Except.ok { st2 with
          coordtime := some tv
          wherewhen := dictSet st2.wherewhen "time" (WWVal.v tv) }

/-- `parse_wherewhen` (lines 372-405): at most one WhereWhen element; a
missing ObsDataLocation/ObservationLocation is an AttributeError
(`None.find`); the closing print reads `self.coordsystem` and
`self.coordtime`, which raises AttributeError whenever they were never
assigned (in particular whenever WhereWhen is absent on a fresh parse). -/
def parse_wherewhen (root : Elem) (st : VOSt) : Except PyErr VOSt :=
  let WW := findall root "WhereWhen"
  if WW.length ≤ 1 then
    match (match WW.head? with
           | Option.none => Except.ok { st with wherewhen := [] }
           | some ww =>
             match findPath ww ["ObsDataLocation", "ObservationLocation"] with
             | Option.none => Except.error PyErr.attributeError
             | some obsloc =>
               parse_wherewhen_obsloc obsloc { st with wherewhen := [], WhereWhen := some ww }) with
    | Except.error e => Except.error e
    | Except.ok st1 =>
      match st1.coordsystem with
      | Option.none => Except.error PyErr.attributeError
      | some _ =>
        match st1.coordtime with
        | Option.none => Except.error PyErr.attributeError
        | some _ => Except.ok st1
  else Except.error PyErr.assertionError

/-- `parse_how` (lines 407-421): presence only. -/
def parse_how (root : Elem) (st : VOSt) : Except PyErr VOSt :=
  let How := findall root "How"
  if How.length ≤ 1 then
    let st1 := { st with how := [] }
    match How.head? with
    | Option.none => Except.ok st1
    | some h => Except.ok { st1 with How := some h }
  else Except.error PyErr.assertionError

/-- `parse_why` (lines 423-453). -/
def parse_why (root : Elem) (st : VOSt) : Except PyErr VOSt :=
  let Why := findall root "Why"
  if Why.length ≤ 1 then
    let st1 := { st with why := Option.none }
    match Why.head? with
    | Option.none => Except.ok st1
    | some w =>
      let st2 := { st1 with Why := some w }
      match convert_value (pyGetD w.attrib "importance") Conv.force Option.none with
      | Except.error e => Except.error e
      | Except.ok imp =>
        match convert_value (pyGetD w.attrib "expires") Conv.force Option.none with
        | Except.error e => Except.error e
        | Except.ok exp =>
          let descV : PyValue :=
            match find1 w "Description" with
            | some d => textPy d
            | Option.none => PyValue.vStr ""
          match find1 w "Inference" with
          | Option.none =>
            Except.ok { st2 with why := some ⟨imp, exp, descV, Option.none⟩ }
          | some inf =>
            match convert_value (pyGetD inf.attrib "probability") Conv.force Option.none with
            | Except.error e => Except.error e
            | Except.ok prob =>
              match convert_value (pyGetD inf.attrib "relation") Conv.force Option.none with
              | Except.error e => Except.error e
              | Except.ok rel =>
                let nameV : Option String :=
                  match find1 inf "Name" with
                  | some nEl => nEl.text
                  | Option.none => Option.none
                match (match find1 inf "Concept" with
                       | Option.none => Except.ok (Option.none : Option (List String))
                       | some cEl =>
                         match cEl.text with
                         | Option.none => Except.error PyErr.attributeError
                         | some ctext => Except.ok (some (pySplitCharAll ctext ';'))) with
                | Except.error e => Except.error e
                | Except.ok conceptV =>
                  Except.ok { st2 with why := some ⟨imp, exp, descV, some ⟨prob, rel, nameV, conceptV⟩⟩ }
  else Except.error PyErr.assertionError

/-- The loop of `parse_citations` (lines 460-473). -/
def parse_citations_list : List Elem → List (PyValue × Option String) →
    Except PyErr (List (PyValue × Option String))
  | [], acc => Except.ok acc
  | cit :: rest, acc =>
    if cit.tag = "EventIVORN" then
      match pyGet cit.attrib "cite" with
      | Option.none => Except.error PyErr.valueError
      | some cite =>
        if cite ∈ [PyValue.vStr "followup", PyValue.vStr "supersedes", PyValue.vStr "retraction"] then
          parse_citations_list rest (acc ++ [(cite, cit.text)])
        else Except.error PyErr.valueError
    else if cit.tag = "Description" then
      parse_citations_list rest (acc ++ [(PyValue.vStr "description", cit.text)])
    else Except.error PyErr.valueError

/-- `parse_citations` (lines 455-474): it uses `find`, so only the first
Citations element is ever consulted, and `Citations if Citations else
None` makes a childless element count as absent. -/
def parse_citations (root : Elem) (st : VOSt) : Except PyErr VOSt :=
  let citval : Option Elem :=
    match find1 root "Citations" with
    | some c => if c.children.isEmpty then Option.none else some c
    | Option.none => Option.none
  let st1 := { st with Citations := citval, citations := some [] }
  match citval with
  | Option.none => Except.ok st1
  | some c =>
    match parse_citations_list c.children [] with
    | Except.error e => Except.error e
    | Except.ok entries => Except.ok { st1 with citations := some entries }

/-- `parse_description` (lines 476-482): also `find`-based; the stored
element is the first child, and the loop only prints. -/
def parse_description (root : Elem) (st : VOSt) : Except PyErr VOSt :=
  let dval : Option Elem :=
    match find1 root "Description" with
    | some d => if d.children.isEmpty then Option.none else d.children.head?
    | Option.none => Option.none
  Except.ok { st with Description := dval, description := some [] }

/-- `parse_reference` (lines 484-488): also `find`-based. -/
def parse_reference (root : Elem) (st : VOSt) : Except PyErr VOSt :=
  match find1 root "Reference" with
  | some r =>
    if r.children.isEmpty then Except.ok st
    else Except.ok { st with Reference := r.children.head? }
  | Option.none => Except.ok st

/-- `VOEvent.parse(options)` (lines 267-297): the validation prelude, then
the section extractors in their fixed order. -/
def VOEvent_parse (root : Elem) (options : Option Unit) : Except PyErr VOSt :=
  parse_prelude root options >>= parse_who root >>= parse_what root >>=
    parse_wherewhen root >>= parse_how root >>= parse_why root >>=
    parse_citations root >>= parse_description root >>= parse_reference root

/-! ## Claims about the document parse -/

def obsLoc0 : Elem :=
  { tag := "ObservationLocation", attrib := [], text := Option.none, children := [] }

def obsData0 : Elem :=
  { tag := "ObsDataLocation", attrib := [], text := Option.none, children := [obsLoc0] }

def ww0 : Elem :=
  { tag := "WhereWhen", attrib := [], text := Option.none, children := [obsData0] }

def descOf (s : String) : Elem :=
  { tag := "Description", attrib := [], text := some s, children := [] }

def citOf (s : String) : Elem :=
  { tag := "Citations", attrib := [], text := Option.none, children := [descOf s] }

def voeventAttribs : List (String × PyValue) :=
  [("version", PyValue.vStr "2.0"), ("role", PyValue.vStr "observation"),
   ("ivorn", PyValue.vStr "ivo://example.org/test#1")]

def voeventTag : String := "\x7bhttp://www.ivoa.net/xml/VOEvent/v2.0\x7dVOEvent"

def docDupCit : Elem :=
  { tag := voeventTag, attrib := voeventAttribs, text := Option.none,
    children := [ww0, citOf "first", citOf "second"] }

/-- C5 counterexample: a valid document whose root holds two Citations
sections parses successfully — only the first Citations element is read,
and no duplicate-section error is raised for this tag. -/
theorem c5_counterexample :
    (findall docDupCit "Citations").length = 2 ∧
    ∃ st, VOEvent_parse docDupCit Option.none = Except.ok st ∧
      st.citations = some [(PyValue.vStr "description", some "first")] := by
  refine ⟨rfl, ⟨_, rfl, rfl⟩⟩

/-- C5 amended: only the five extractors that use `findall` (Who, What,
WhereWhen, How, Why) fail on duplicate sections, with an AssertionError;
Citations, Description and Reference use `find`, so their output depends
only on the first element with that tag and duplicates are silently
ignored. -/
theorem c5_theorem :
    (∀ (root : Elem) (st : VOSt), 2 ≤ (findall root "Who").length →
        parse_who root st = Except.error PyErr.assertionError) ∧
    (∀ (root : Elem) (st : VOSt), 2 ≤ (findall root "What").length →
        parse_what root st = Except.error PyErr.assertionError) ∧
    (∀ (root : Elem) (st : VOSt), 2 ≤ (findall root "WhereWhen").length →
        parse_wherewhen root st = Except.error PyErr.assertionError) ∧
    (∀ (root : Elem) (st : VOSt), 2 ≤ (findall root "How").length →
        parse_how root st = Except.error PyErr.assertionError) ∧
    (∀ (root : Elem) (st : VOSt), 2 ≤ (findall root "Why").length →
        parse_why root st = Except.error PyErr.assertionError) ∧
    (∀ (root1 root2 : Elem) (st : VOSt), find1 root1 "Citations" = find1 root2 "Citations" →
        parse_citations root1 st = parse_citations root2 st) ∧
    (∀ (root1 root2 : Elem) (st : VOSt), find1 root1 "Description" = find1 root2 "Description" →
        parse_description root1 st = parse_description root2 st) ∧
    (∀ (root1 root2 : Elem) (st : VOSt), find1 root1 "Reference" = find1 root2 "Reference" →
        parse_reference root1 st = parse_reference root2 st) := by
  refine ⟨?_, ?_, ?_, ?_, ?_, ?_, ?_, ?_⟩
  · intro root st h
    simp only [parse_who]
    rw [if_neg (by omega)]
  · intro root st h
    simp only [parse_what]
    rw [if_neg (by omega)]
  · intro root st h
    simp only [parse_wherewhen]
    rw [if_neg (by omega)]
  · intro root st h
    simp only [parse_how]
    rw [if_neg (by omega)]
  · intro root st h
    simp only [parse_why]
    rw [if_neg (by omega)]
  · intro root1 root2 st h
    simp only [parse_citations, h]
  · intro root1 root2 st h
    simp only [parse_description, h]
  · intro root1 root2 st h
    simp only [parse_reference, h]

def whoEmpty : Elem := { tag := "Who", attrib := [], text := Option.none, children := [] }

def docDupWho : Elem :=
  { tag := voeventTag, attrib := voeventAttribs, text := Option.none,
    children := [whoEmpty, whoEmpty, ww0] }

/-- C5 witness: the amended theorem at concrete inputs — two Who sections
abort `parse_who`, and `parse_citations` gives the same result on the
duplicate-Citations document as on one carrying only the first copy. -/
theorem c5_witness :
    parse_who docDupWho initState = Except.error PyErr.assertionError ∧
    parse_citations docDupCit initState =
      parse_citations { docDupCit with children := [ww0, citOf "first"] } initState := by
  constructor
  · exact c5_theorem.1 docDupWho initState (by decide)
  · exact c5_theorem.2.2.2.2.2.1 docDupCit { docDupCit with children := [ww0, citOf "first"] }
      initState rfl

def sysNoId : Elem :=
  { tag := "AstroCoordSystem", attrib := [], text := Option.none, children := [] }

def obsLocNoId : Elem :=
  { tag := "ObservationLocation", attrib := [], text := Option.none, children := [sysNoId] }

def sysGood : Elem :=
  { tag := "AstroCoordSystem", attrib := [("id", PyValue.vStr "UTC-ICRS-TOPO")],
    text := Option.none, children := [] }

def obsLocGood : Elem :=
  { tag := "ObservationLocation", attrib := [], text := Option.none, children := [sysGood] }

/-- C8 counterexample: an AstroCoordSystem element without an "id"
attribute makes `parse_coord_system` fail with a KeyError — the claim says
absence of the attribute is allowed and does not fail the parse (and the
failure is not the invalid-coordinate-system error either). -/
theorem c8_counterexample :
    parse_coord_system obsLocNoId = Except.error PyErr.keyError ∧
    PyErr.keyError ≠ PyErr.valueError := by
  constructor
  · rfl
  · decide

/-- C8 amended: absence of the AstroCoordSystem element is allowed; when
the element is present its "id" attribute is mandatory — a missing id
aborts the parse with an uncaught KeyError — and a present id fails with
the invalid-coordinate-system ValueError exactly when it lies outside the
whitelist. -/
theorem c8_theorem (el : Elem) :
    (findPath el ["AstroCoordSystem"] = Option.none →
        parse_coord_system el = Except.ok PyValue.vNone) ∧
    (∀ sysEl, findPath el ["AstroCoordSystem"] = some sysEl →
      (pyGet sysEl.attrib "id" = Option.none →
          parse_coord_system el = Except.error PyErr.keyError) ∧
      (∀ v, pyGet sysEl.attrib "id" = some v →
        (v ∈ coordWhitelist → parse_coord_system el = Except.ok v) ∧
        (v ∉ coordWhitelist → parse_coord_system el = Except.error PyErr.valueError))) := by
  constructor
  · intro h
    simp [parse_coord_system, h]
  · intro sysEl hs
    constructor
    · intro hid
      simp [parse_coord_system, hs, hid]
    · intro v hv
      constructor
      · intro hin
        simp [parse_coord_system, hs, hv, hin]
      · intro hout
        simp [parse_coord_system, hs, hv, hout]

/-- C8 witness: the amended theorem at concrete inputs — a whitelisted id
is returned, a missing id raises KeyError. -/
theorem c8_witness :
    parse_coord_system obsLocGood = Except.ok (PyValue.vStr "UTC-ICRS-TOPO") ∧
    parse_coord_system obsLocNoId = Except.error PyErr.keyError := by
  constructor
  · exact ((c8_theorem obsLocGood).2 sysGood rfl).2 (PyValue.vStr "UTC-ICRS-TOPO") rfl
      |>.1 (by decide)
  · exact ((c8_theorem obsLocNoId).2 sysNoId rfl).1 rfl

lemma parse_prelude_options (root : Elem) (st0 : VOSt)
    (h : parse_prelude root (some ()) = Except.ok st0) : st0.options = Option.none := by
  simp only [parse_prelude] at h
  repeat' split at h
  all_goals first
    | exact Except.noConfusion h
    | (simp only [Except.ok.injEq] at h; subst h; rfl)

lemma parse_who_children_options (cs : List Elem) :
    ∀ (st st' : VOSt), parse_who_children cs st = Except.ok st' → st'.options = st.options := by
  induction cs with
  | nil =>
    intro st st' h
    simp only [parse_who_children, Except.ok.injEq] at h
    subst h
    rfl
  | cons c rest ih =>
    intro st st' h
    simp only [parse_who_children] at h
    split at h
    · rw [ih _ _ h]
    · split at h
      · rw [ih _ _ h]
      · split at h
        · split at h
          · exact Except.noConfusion h
          · rw [ih _ _ h]
        · split at h
          · rw [ih _ _ h]
          · split at h
            · rw [ih _ _ h]
            · rw [ih _ _ h]

lemma parse_who_options (root : Elem) (st st' : VOSt)
    (h : parse_who root st = Except.ok st') : st'.options = st.options := by
  simp only [parse_who] at h
  split at h
  · split at h
    · simp only [Except.ok.injEq] at h
      subst h
      rfl
    · rw [parse_who_children_options _ _ _ h]
  · exact absurd h (by simp)

/-- C10: on a fresh instance, `parse` with a non-None options argument
never assigns `self.options`, so as soon as the document carries a What
element (so that `parse_what_group` runs and reads
`self.options['conversion']`), the whole parse dies with AttributeError.
The hypotheses say precisely that the steps before the What extractor
(the validation prelude and the Who extractor) run without error on this
document. -/
theorem c10_theorem (root : Elem) (st0 st1 : VOSt) (w : Elem)
    (hpre : parse_prelude root (some ()) = Except.ok st0)
    (hwho : parse_who root st0 = Except.ok st1)
    (hwhat : findall root "What" = [w])
    (_hchild : ∃ c ∈ w.children, c.tag = "Param" ∨ c.tag = "Group") :
    VOEvent_parse root (some ()) = Except.error PyErr.attributeError := by
  have hopt : st1.options = Option.none := by
    rw [parse_who_options root st0 st1 hwho, parse_prelude_options root st0 hpre]
  have hw : parse_what root st1 = Except.error PyErr.attributeError := by
    simp [parse_what, hwhat, parse_what_group, hopt]
  simp [VOEvent_parse, bind, Except.bind, hpre, hwho, hw]

def paramFlux : Elem :=
  { tag := "Param", attrib := [("name", PyValue.vStr "flux")], text := Option.none, children := [] }

def whatP : Elem :=
  { tag := "What", attrib := [], text := Option.none, children := [paramFlux] }

def docWhatOpts : Elem :=
  { tag := voeventTag, attrib := voeventAttribs, text := Option.none, children := [whatP] }

/-- C10 witness: the theorem at a concrete valid document holding a What
section with one Param child, parsed with a non-None options argument. -/
theorem c10_witness :
    VOEvent_parse docWhatOpts (some ()) = Except.error PyErr.attributeError :=
  c10_theorem docWhatOpts _ _ whatP rfl rfl rfl ⟨paramFlux, by simp [whatP], Or.inl rfl⟩

def countChar (s : String) (c : Char) : Nat := s.toList.count c

lemma splitCharNAux_length (c : Char) :
    ∀ (xs : List Char) (fuel : Nat) (acc : List Char),
      (splitCharNAux c xs fuel acc).length = min (xs.count c) fuel + 1 := by
  intro xs
  induction xs with
  | nil =>
    intro fuel acc
    simp [splitCharNAux]
  | cons x xs ih =>
    intro fuel acc
    by_cases hx : x = c
    · subst hx
      cases fuel with
      | zero => simp [splitCharNAux, ih, List.count_cons]
      | succ f =>
        simp [splitCharNAux, ih, List.count_cons]
        omega
    · simp [splitCharNAux, hx, ih, List.count_cons]

lemma pySplitCharN_length (s : String) (c : Char) (maxsplit : Nat) :
    (pySplitCharN s c maxsplit).length = min (countChar s c) maxsplit + 1 :=
  splitCharNAux_length c s.toList maxsplit []

/-- The shape the IVORN decomposition actually accepts: at least three '/'
characters, and a '#' somewhere in the fourth maxsplit-4 part. -/
def ivornShapeOk (s : String) : Bool :=
  decide (3 ≤ countChar s '/') &&
    (match (pySplitCharN s '/' 4).get? 3 with
     | some t => decide (1 ≤ countChar t '#')
     | Option.none => false)

/-- C6 counterexample: an IVORN whose fourth segment carries two '#'
characters is accepted (the local id keeps the second '#'), although the
claim requires exactly one '#' and predicts a malformed-IVORN failure. -/
theorem c6_counterexample :
    parse_ivorn "ivo://a/b#c#d" = Except.ok ("a", "b", "c#d") ∧
    countChar "b#c#d" '#' = 2 := by
  constructor
  · rfl
  · rfl

/-- C6 amended: the IVORN decomposition succeeds exactly when the string
has at least three '/' characters and the fourth part of the
maxsplit-4 '/'-split contains at least one '#' (resourceKey is what
precedes the first '#' of that part, localId everything after it; content
beyond a fourth '/' is ignored); any other shape aborts the parse with an
uncaught IndexError or ValueError. -/
theorem c6_theorem (s : String) :
    (∃ eid, parse_ivorn s = Except.ok eid) ↔ ivornShapeOk s = true := by
  have hlen := pySplitCharN_length s '/' 4
  constructor
  · rintro ⟨eid, h⟩
    simp only [parse_ivorn] at h
    split at h
    · exact Except.noConfusion h
    · rename_i authority h2
      split at h
      · exact Except.noConfusion h
      · rename_i k3 h3
        split at h
        · rename_i rk lid h4
          have h3' : 3 < (pySplitCharN s '/' 4).length := by
            by_contra hc
            rw [List.get?_eq_none.mpr (by omega)] at h3
            exact Option.noConfusion h3
          have hcount : 3 ≤ countChar s '/' := by omega
          have hk3len := pySplitCharN_length k3 '#' 1
          have h4len : (pySplitCharN k3 '#' 1).length = 2 := by rw [h4]; rfl
          have hkc : 1 ≤ countChar k3 '#' := by omega
          simp [ivornShapeOk, hcount, ← List.get?_eq_getElem?, h3, hkc]
        · exact Except.noConfusion h
  · intro hok
    simp only [ivornShapeOk, Bool.and_eq_true, decide_eq_true_eq] at hok
    obtain ⟨hc, hmatch⟩ := hok
    rcases h3 : (pySplitCharN s '/' 4).get? 3 with _ | t
    · rw [h3] at hmatch
      exact absurd hmatch (by simp)
    · rw [h3] at hmatch
      simp only [decide_eq_true_eq] at hmatch
      obtain ⟨a, h2⟩ : ∃ a, (pySplitCharN s '/' 4).get? 2 = some a := by
        have hlt : 2 < (pySplitCharN s '/' 4).length := by omega
        exact ⟨_, List.get?_eq_get hlt⟩
      have hk3len : (pySplitCharN t '#' 1).length = 2 := by
        rw [pySplitCharN_length]
        omega
      obtain ⟨x, y, hxy⟩ : ∃ x y, pySplitCharN t '#' 1 = [x, y] := by
        rcases hl : pySplitCharN t '#' 1 with _ | ⟨x, _ | ⟨y, _ | _⟩⟩ <;>
          rw [hl] at hk3len <;> simp at hk3len
        exact ⟨x, y, rfl⟩
      refine ⟨(a, x, y), ?_⟩
      simp [parse_ivorn, ← List.get?_eq_getElem?, h2, h3, hxy]

/-- Name1/Name2 of a Position2D subtree are exactly "RA"/"Dec". -/
def posNamesOk (pos : Elem) : Bool :=
  match findPath pos ["Name1"], findPath pos ["Name2"] with
  | some n1, some n2 => decide (n1.text = some "RA") && decide (n2.text = some "Dec")
  | _, _ => false

/-- Both Value2/C1 and Value2/C2 are present. -/
def posCoordsPresent (pos : Elem) : Bool :=
  (findPath pos ["Value2", "C1"]).isSome && (findPath pos ["Value2", "C2"]).isSome

/-- The claim's condition at the Position2D subtree found by the
WhereWhen extractor. -/
def obslocPosCond (obsloc : Elem) : Bool :=
  match findPath obsloc ["AstroCoords", "Position2D"] with
  | Option.none => false
  | some pos => posNamesOk pos && posCoordsPresent pos

/-- The claim's condition for a whole document. -/
def posCondB (root : Elem) : Bool :=
  match (findall root "WhereWhen").head? with
  | Option.none => false
  | some ww =>
    match findPath ww ["ObsDataLocation", "ObservationLocation"] with
    | Option.none => false
    | some obsloc => obslocPosCond obsloc

lemma parse_position2d_spec (pos : Elem) (st st' : VOSt)
    (hst : st.position2d = Pos2D.empty)
    (h : parse_position2d pos st = Except.ok st') :
    (st'.position2d ≠ Pos2D.empty) ↔ (posNamesOk pos && posCoordsPresent pos) = true := by
  rcases hn1 : findPath pos ["Name1"] with _ | n1
  · simp only [parse_position2d, hn1] at h
    simp only [Except.ok.injEq] at h
    subst h
    simp [posNamesOk, hn1, hst]
  · rcases hn2 : findPath pos ["Name2"] with _ | n2
    · simp only [parse_position2d, hn1, hn2] at h
      simp only [Except.ok.injEq] at h
      subst h
      simp [posNamesOk, hn1, hn2, hst]
    · by_cases hA : n1.text = some "RA"
      · by_cases hB : n2.text = some "Dec"
        · rcases hc1 : findPath pos ["Value2", "C1"] with _ | ra <;>
            rcases hc2 : findPath pos ["Value2", "C2"] with _ | dec <;>
            simp only [parse_position2d, hn1, hn2, hc1, hc2, if_pos (And.intro hA hB)] at h <;>
            repeat' split at h
          all_goals first
            | exact Except.noConfusion h
            | (simp only [Except.ok.injEq] at h; subst h;
               simp_all [posNamesOk, posCoordsPresent, hst])
        · simp only [parse_position2d, hn1, hn2] at h
          rw [if_neg (by simp [hB])] at h
          simp only [Except.ok.injEq] at h
          subst h
          simp [posNamesOk, hn1, hn2, hB, hst]
      · simp only [parse_position2d, hn1, hn2] at h
        rw [if_neg (by simp [hA])] at h
        simp only [Except.ok.injEq] at h
        subst h
        simp [posNamesOk, hn1, hn2, hA, hst]

lemma parse_wherewhen_obsloc_pos (obsloc : Elem) (st st' : VOSt)
    (hst : st.position2d = Pos2D.empty)
    (h : parse_wherewhen_obsloc obsloc st = Except.ok st') :
    (st'.position2d ≠ Pos2D.empty) ↔ obslocPosCond obsloc = true := by
  simp only [parse_wherewhen_obsloc] at h
  rcases hp : findPath obsloc ["AstroCoords", "Position2D"] with _ | pos
  · simp only [hp] at h
    repeat' split at h
    all_goals first
      | exact Except.noConfusion h
      | (simp only [Except.ok.injEq] at h; subst h; simp [obslocPosCond, hp, hst])
  · simp only [hp] at h
    rcases hpp : parse_position2d pos st with e | st1
    · simp only [hpp] at h
      exact Except.noConfusion h
    · simp only [hpp] at h
      have hspec := parse_position2d_spec pos st st1 hst hpp
      repeat' split at h
      all_goals first
        | exact Except.noConfusion h
        | (simp only [Except.ok.injEq] at h; subst h;
           simpa [obslocPosCond, hp] using hspec)

/-- C7: within a run of the WhereWhen extractor that completes without an
exception, starting from the empty default position, the position is
non-empty afterwards exactly when the found AstroCoords/Position2D subtree
has Name1 "RA", Name2 "Dec" and both Value2/C1 and Value2/C2 present; with
any other naming the position stays at its empty default whatever the
children are. -/
theorem c7_theorem (root : Elem) (st st' : VOSt)
    (hpos : st.position2d = Pos2D.empty)
    (h : parse_wherewhen root st = Except.ok st') :
    (st'.position2d ≠ Pos2D.empty) ↔ posCondB root = true := by
  simp only [parse_wherewhen] at h
  split at h
  · rcases hww : (findall root "WhereWhen").head? with _ | ww
    · simp only [hww] at h
      repeat' split at h
      all_goals first
        | exact Except.noConfusion h
        | (simp only [Except.ok.injEq] at h; subst h; simp [posCondB, hww, hpos])
    · simp only [hww] at h
      rcases hol : findPath ww ["ObsDataLocation", "ObservationLocation"] with _ | obsloc
      · simp only [hol] at h
        exact Except.noConfusion h
      · simp only [hol] at h
        rcases hobs : parse_wherewhen_obsloc obsloc
            { st with wherewhen := [], WhereWhen := some ww } with e | st1
        · simp only [hobs] at h
          exact Except.noConfusion h
        · simp only [hobs] at h
          have hspec := parse_wherewhen_obsloc_pos obsloc _ st1 (by simp [hpos]) hobs
          repeat' split at h
          all_goals first
            | exact Except.noConfusion h
            | (simp only [Except.ok.injEq] at h; subst h;
               simpa [posCondB, hww, hol] using hspec)
  · exact Except.noConfusion h

def c7Name1 : Elem :=
  { tag := "Name1", attrib := [], text := some "lon", children := [] }

def c7Name2 : Elem :=
  { tag := "Name2", attrib := [], text := some "lat", children := [] }

def c7C1 : Elem :=
  { tag := "C1", attrib := [], text := some "1.5", children := [] }

def c7C2 : Elem :=
  { tag := "C2", attrib := [], text := some "2.5", children := [] }

def c7Value2 : Elem :=
  { tag := "Value2", attrib := [], text := Option.none, children := [c7C1, c7C2] }

/-- A Position2D subtree named lon/lat with valid numeric coordinates. -/
def c7Pos : Elem :=
  { tag := "Position2D", attrib := [], text := Option.none,
    children := [c7Name1, c7Name2, c7Value2] }

def c7Astro : Elem :=
  { tag := "AstroCoords", attrib := [], text := Option.none, children := [c7Pos] }

def c7ObsLoc : Elem :=
  { tag := "ObservationLocation", attrib := [], text := Option.none,
    children := [c7Astro] }

def c7ObsData : Elem :=
  { tag := "ObsDataLocation", attrib := [], text := Option.none,
    children := [c7ObsLoc] }

def c7WW : Elem :=
  { tag := "WhereWhen", attrib := [], text := Option.none, children := [c7ObsData] }

def c7Root : Elem :=
  { tag := voeventTag, attrib := [], text := Option.none, children := [c7WW] }

/-- The state the WhereWhen extractor leaves behind on `c7Root`. -/
def c7St : VOSt :=
  match parse_wherewhen c7Root initState with
  | Except.ok s => s
  | Except.error _ => initState

theorem c7_witness :
    ((c7St.position2d ≠ Pos2D.empty) ↔ posCondB c7Root = true) ∧
      posCondB c7Root = false ∧ c7St.position2d = Pos2D.empty :=
  ⟨c7_theorem c7Root initState c7St rfl rfl, rfl, rfl⟩
